import Mathlib

/-!
Shallow embedding of the OAuth2 token lifecycle code of `lmi`
(`src/lmi/auth.py` and `src/lmi/sso.py`).

Time is modelled as an explicit natural-number parameter `now`
(`time.time()` is a nonnegative timestamp); timestamps stored in tokens
are integers, as in the cache file format.  HTTP exchanges are modelled
by oracles: the JSON body a token endpoint would answer with, or an
error standing for a non-2xx response (`raise_for_status`).  Python
exceptions are modelled with `Except String`; side effects (token POSTs,
browser opens, listener binds, cache writes) are recorded in an
`Effects` value returned alongside the result.
-/

namespace Lmi

/-- Structure `AuthToken` from `auth.py`: unified token container. -/
structure AuthToken where
  access_token : String
  expires_at : Int
  token_type : String := "Bearer"
  refresh_token : Option String := none
  id_token : Option String := none
  issued_at : Option Int := none
  deriving Repr, DecidableEq

/-- Property `AuthToken.is_expired`: `time.time() >= self.expires_at`. -/
def AuthToken.is_expired (t : AuthToken) (now : Nat) : Bool :=
  decide (t.expires_at ≤ (now : Int))

/--
A Python dict as read from a token cache JSON file.  An outer `none`
means the key is absent; for the optional token fields the inner
`Option` distinguishes a JSON `null` (`none`) from a string/int value,
since `dict.get` collapses both missing key and `null` to Python `None`.
-/
structure TokenDict where
  access_token : Option String := none
  expires_at : Option Int := none
  token_type : Option String := none
  refresh_token : Option (Option String) := none
  id_token : Option (Option String) := none
  issued_at : Option (Option Int) := none
  deriving Repr, DecidableEq

/-- Method `AuthToken.from_dict`: `data["access_token"]` raises `KeyError`
(modelled as `none`) when the key is missing; the remaining fields are
read with `dict.get` and its defaults. -/
def AuthToken.from_dict (d : TokenDict) : Option AuthToken :=
  match d.access_token with
  | none => none
  | some a =>
    some { access_token := a
           expires_at := d.expires_at.getD 0
           token_type := d.token_type.getD "Bearer"
           refresh_token := d.refresh_token.getD none
           id_token := d.id_token.getD none
           issued_at := d.issued_at.getD none }

/-- Method `AuthToken.to_dict`: every key is written; absent optionals are
written as `null`. -/
def AuthToken.to_dict (t : AuthToken) : TokenDict :=
  { access_token := some t.access_token
    expires_at := some t.expires_at
    token_type := some t.token_type
    refresh_token := some t.refresh_token
    id_token := some t.id_token
    issued_at := some t.issued_at }

/-- The state of the cache file backing one environment: no file at all,
a file whose contents `json.load` rejects, or a parsed JSON object. -/
inductive StoredRecord where
  | missing
  | corrupt
  | parsed (d : TokenDict)
  deriving Repr, DecidableEq

/-- Function `load_cached_token`: returns the decoded token only when it is not
expired; a missing file, a JSON parse error, or a `KeyError` in
`from_dict` (both caught by the `except` clause) yield `None`, and an
expired decoded token also yields `None`. -/
def load_cached_token (now : Nat) (store : StoredRecord) : Option AuthToken :=
  match store with
  | .missing => none
  | .corrupt => none
  | .parsed d =>
    match AuthToken.from_dict d with
    | none => none
    | some t => if t.is_expired now then none else some t

/-- The configuration keys `auth.py` reads; `none` means the key is not
present in the mapping (`config[k]` then raises `KeyError`). -/
structure Config where
  grant_type : Option String := none
  client_id : Option String := none
  client_secret : Option String := none
  token_url : Option String := none
  authorize_url : Option String := none
  username : Option String := none
  password : Option String := none
  scopes : Option String := none
  deriving Repr, DecidableEq

/-- The JSON body of a 2xx token-endpoint response; `none` means the
field is absent from the JSON object. -/
structure TokenResponse where
  access_token : Option String := none
  expires_in : Option Int := none
  refresh_token : Option String := none
  id_token : Option String := none
  token_type : Option String := none
  deriving Repr, DecidableEq

/-- Observable side effects of one `get_token`/`acquire_token` call:
refresh-grant POSTs, other token-endpoint POSTs, browser opens, loopback
listener binds, and tokens written to the cache by `save_token`. -/
structure Effects where
  refreshPosts : Nat := 0
  acquirePosts : Nat := 0
  browserOpens : Nat := 0
  listenerBinds : Nat := 0
  saved : List AuthToken := []
  deriving Repr, DecidableEq

/-- Outcome of one PKCE loopback attempt, as seen by
`_acquire_pkce_token` after the browser interaction. -/
inductive PkceOutcome where
  | timeout
  | errorParam (e : String)
  | missingCodeOrState
  | stateMismatch
  | callback (resp : Except Unit TokenResponse)
  deriving Repr

/-- The environment a token acquisition runs against: what the token
endpoint would answer to a refresh POST or to a non-interactive grant
POST (`Except.error` = non-2xx, so `raise_for_status` raises), and how a
PKCE loopback attempt would end. -/
structure Oracle where
  refreshResp : Except Unit TokenResponse := .error ()
  grantResp : Except Unit TokenResponse := .error ()
  pkce : PkceOutcome := .timeout
  deriving Repr

/-- Token built by `_refresh_auth_token` / `acquire_token` from a
token-endpoint JSON body whose `access_token` is `a`:
`expires_at = now + expires_in` with `expires_in` defaulting to 3600. -/
def tokenFromResponse (now : Nat) (a : String) (r : TokenResponse) : AuthToken :=
  { access_token := a
    refresh_token := r.refresh_token
    id_token := r.id_token
    expires_at := (now : Int) + r.expires_in.getD 3600
    token_type := r.token_type.getD "Bearer"
    issued_at := some (now : Int) }

/-- Function `_refresh_auth_token`: raises when the token has no refresh token;
reads `OAUTH_CLIENT_ID`, `OAUTH_CLIENT_SECRET`, `OAUTH_TOKEN_URL`
(`KeyError` when missing) before POSTing; on a 2xx response builds the
new token, carrying the previous `refresh_token`/`id_token` forward when
the response omits them.  The second component counts refresh POSTs. -/
def refresh_auth_token (now : Nat) (token : AuthToken) (cfg : Config)
    (resp : Except Unit TokenResponse) : Except String AuthToken × Nat :=
  match token.refresh_token with
  | none => (.error "No refresh token available", 0)
  | some _ =>
    match cfg.client_id, cfg.client_secret, cfg.token_url with
    | some _, some _, some _ =>
      match resp with
      | .error _ => (.error "token endpoint returned non-2xx", 1)
      | .ok r =>
        match r.access_token with
        | none => (.error "KeyError: access_token", 1)
        | some a =>
          (.ok { tokenFromResponse now a r with
                 refresh_token := match r.refresh_token with
                   | some v => some v
                   | none => token.refresh_token
                 id_token := match r.id_token with
                   | some v => some v
                   | none => token.id_token }, 1)
    | _, _, _ => (.error "KeyError: config", 0)

/-- Function `_acquire_pkce_token`: reads `OAUTH_CLIENT_ID`,
`OAUTH_AUTHORIZE_URL`, `OAUTH_TOKEN_URL` (`KeyError` before any bind),
then binds the loopback listener, opens the browser and waits for the
callback; every failure raises (`RuntimeError`), success builds the
token from the exchange response. -/
def acquire_pkce_token (now : Nat) (cfg : Config) (p : PkceOutcome) :
    Except String AuthToken × Effects :=
  match cfg.client_id, cfg.authorize_url, cfg.token_url with
  | some _, some _, some _ =>
    let eff : Effects := { browserOpens := 1, listenerBinds := 1 }
    match p with
    | .timeout => (.error "SSO login timed out", eff)
    | .errorParam e => (.error ("SSO login failed: " ++ e), eff)
    | .missingCodeOrState => (.error "Invalid callback response", eff)
    | .stateMismatch => (.error "State mismatch - possible CSRF attack", eff)
    | .callback (.error _) => (.error "token exchange failed", eff)
    | .callback (.ok r) =>
      match r.access_token with
      | none => (.error "KeyError: access_token", eff)
      | some a => (.ok (tokenFromResponse now a r), eff)
  | _, _, _ => (.error "KeyError: config", {})

/-- The single POST of a non-PKCE grant in `acquire_token`: reads
`OAUTH_TOKEN_URL` (`KeyError` when missing), POSTs once, raises on a
non-2xx response (`raise_for_status`) or a body without
`access_token`. -/
def acquire_token_post (now : Nat) (cfg : Config) (o : Oracle) :
    Except String AuthToken × Effects :=
  match cfg.token_url with
  | none => (.error "KeyError: OAUTH_TOKEN_URL", {})
  | some _ =>
    match o.grantResp with
    | .error _ => (.error "token endpoint returned non-2xx", { acquirePosts := 1 })
    | .ok r =>
      match r.access_token with
      | none => (.error "KeyError: access_token", { acquirePosts := 1 })
      | some a => (.ok (tokenFromResponse now a r), { acquirePosts := 1 })

/-- Function `acquire_token`: dispatches on the grant type; PKCE is delegated to
`acquire_pkce_token`, `client_credentials` and `password` read their
required keys (`KeyError` when missing) and POST once via
`acquire_token_post`; any other grant string raises `ValueError` before
any network call. -/
def acquire_token (now : Nat) (cfg : Config) (grant_type : String)
    (o : Oracle) : Except String AuthToken × Effects :=
  if grant_type = "authorization_code_pkce" then
    acquire_pkce_token now cfg o.pkce
  else if grant_type = "client_credentials" then
    match cfg.client_id, cfg.client_secret with
    | some _, some _ => acquire_token_post now cfg o
    | _, _ => (.error "KeyError: config", {})
  else if grant_type = "password" then
    match cfg.client_id, cfg.client_secret, cfg.username, cfg.password with
    | some _, some _, some _, some _ => acquire_token_post now cfg o
    | _, _, _, _ => (.error "KeyError: config", {})
  else
    (.error ("Unsupported grant_type: " ++ grant_type), {})

/-- The acquisition phase of `get_token` (its final `try` block): the
grant type defaults to `client_credentials`; PKCE without
`allow_interactive_for_new` returns `None` before any acquisition; an
acquired token is saved and returned; any exception is caught and
yields `None`. -/
def getTokenAcquire (now : Nat) (cfg : Config) (o : Oracle)
    (allow_interactive_for_new : Bool) : Option AuthToken × Effects :=
  if cfg.grant_type.getD "client_credentials" = "authorization_code_pkce"
      ∧ allow_interactive_for_new = false then
    (none, {})
  else
    match acquire_token now cfg (cfg.grant_type.getD "client_credentials") o with
    | (.ok t, e) => (some t, { e with saved := e.saved ++ [t] })
    | (.error _, e) => (none, e)

/-- Function `get_token`: unless `force_new`, consult the cache; an unexpired
cached token is returned as is; a cached token that is expired but
carries a refresh token is refreshed (refresh errors are swallowed and
fall through); otherwise a new token is acquired and saved. -/
def get_token (now : Nat) (cfg : Config) (store : StoredRecord) (o : Oracle)
    (allow_interactive_for_new : Bool := false) (force_new : Bool := false) :
    Option AuthToken × Effects :=
  if force_new then getTokenAcquire now cfg o allow_interactive_for_new
  else
    match load_cached_token now store with
    | some t =>
      if t.is_expired now = false then (some t, {})
      else
        match t.refresh_token with
        | some _ =>
          (match refresh_auth_token now t cfg o.refreshResp with
           | (.ok t2, n) => (some t2, { refreshPosts := n })
           | (.error _, n) =>
             let r := getTokenAcquire now cfg o allow_interactive_for_new
             (r.1, { r.2 with refreshPosts := r.2.refreshPosts + n }))
        | none => getTokenAcquire now cfg o allow_interactive_for_new
    | none => getTokenAcquire now cfg o allow_interactive_for_new

/-- Class `AuthenticatedClient`: holds the configuration, environment name and
the current token (whose type/access string go into the
`Authorization` header). -/
structure AuthenticatedClient where
  config : Config
  env_name : String
  token : AuthToken
  deriving Repr

/-- Result of one `AuthenticatedClient.request` call: either the status
of the response handed back to the caller or the message of the raised
`RuntimeError`; how many times the wrapped transport was called; the
token held afterwards; and the tokens written to the cache. -/
structure RequestResult where
  outcome : Except String Nat
  transportCalls : Nat
  heldToken : AuthToken
  saved : List AuthToken
  deriving Repr

/-- Method `AuthenticatedClient.request`: one transport call; on a 401, if the
held token has a refresh token the refresh exchange runs and the call
is retried exactly once, returning whatever the retry answers; a failed
refresh saves the expired sentinel token and raises; without a refresh
token it raises immediately.  `transport n` is the status code the
wrapped transport answers on its `n`-th call. -/
def AuthenticatedClient.request (c : AuthenticatedClient) (now : Nat)
    (transport : Nat → Nat) (refreshResp : Except Unit TokenResponse) :
    RequestResult :=
  let s0 := transport 0
  if s0 = 401 then
    match c.token.refresh_token with
    | some _ =>
      match refresh_auth_token now c.token c.config refreshResp with
      | (.ok t2, _) =>
        { outcome := .ok (transport 1), transportCalls := 2
          heldToken := t2, saved := [t2] }
      | (.error _, _) =>
        { outcome := .error "Authentication failed and token refresh unsuccessful"
          transportCalls := 1
          heldToken := c.token
          saved := [{ access_token := "", expires_at := 0, refresh_token := none
                      id_token := none, issued_at := some (now : Int) }] }
    | none =>
      { outcome := .error "Authentication failed and no refresh token available"
        transportCalls := 1, heldToken := c.token, saved := [] }
  else
    { outcome := .ok s0, transportCalls := 1, heldToken := c.token, saved := [] }

/-- Structure `SSOToken` from `sso.py`. -/
structure SSOToken where
  access_token : String
  refresh_token : Option String := none
  id_token : Option String := none
  expires_at : Int
  token_type : String := "Bearer"
  deriving Repr, DecidableEq

/-- Method `SSOAuth._refresh_token`: same construction as
`_refresh_auth_token`, carrying `refresh_token`/`id_token` forward when
the response omits them (every failure is re-raised as a
`RuntimeError` after clearing the stored token). -/
def SSOAuth.refresh_token (now : Nat) (token : SSOToken)
    (resp : Except Unit TokenResponse) : Except String SSOToken :=
  match token.refresh_token with
  | none => .error "No refresh token available"
  | some _ =>
    match resp with
    | .error _ => .error "Failed to refresh token"
    | .ok r =>
      match r.access_token with
      | none => .error "Failed to refresh token"
      | some a =>
        .ok { access_token := a
              refresh_token := match r.refresh_token with
                | some v => some v
                | none => token.refresh_token
              id_token := match r.id_token with
                | some v => some v
                | none => token.id_token
              expires_at := (now : Int) + r.expires_in.getD 3600
              token_type := r.token_type.getD "Bearer" }

/-! Concrete sample data used by witnesses and counterexamples. -/

/-- A cache record that decodes successfully to a token that is expired
at any time and carries a refresh token. -/
def expiredDict : TokenDict :=
  { access_token := some "a", expires_at := some 0
    token_type := some "Bearer", refresh_token := some (some "r")
    id_token := some none, issued_at := some none }

/-- The token `expiredDict` decodes to. -/
def expiredTok : AuthToken :=
  { access_token := "a", expires_at := 0, refresh_token := some "r" }

/-- A cache record that decodes to a token valid until time 200. -/
def validDict : TokenDict :=
  { access_token := some "v", expires_at := some 200 }

/-- The token `validDict` decodes to. -/
def validTok : AuthToken :=
  { access_token := "v", expires_at := 200 }

/-- A client-credentials configuration with all required keys. -/
def cfgCC : Config :=
  { grant_type := some "client_credentials", client_id := some "id"
    client_secret := some "sec", token_url := some "u" }

/-- A PKCE configuration with all required keys. -/
def cfgPkce : Config :=
  { grant_type := some "authorization_code_pkce", client_id := some "id"
    authorize_url := some "a", token_url := some "u" }

/-- A configuration naming an unsupported grant type. -/
def cfgBad : Config :=
  { grant_type := some "implicit", client_id := some "id"
    client_secret := some "sec", token_url := some "u" }

/-- A token-endpoint response body carrying `expires_in = 60`. -/
def okResp : TokenResponse :=
  { access_token := some "new", expires_in := some 60 }

/-- A token-endpoint response body that omits `expires_in`,
`refresh_token` and `id_token`. -/
def noExpResp : TokenResponse :=
  { access_token := some "new" }

/-- A refresh response that omits `refresh_token` but carries a new
`id_token`. -/
def respNoRefresh : TokenResponse :=
  { access_token := some "new", id_token := some "newid" }

/-- A refresh response that omits `id_token` but carries a new
`refresh_token`. -/
def respNoId : TokenResponse :=
  { access_token := some "new", refresh_token := some "r2" }

/-- An environment whose token endpoint answers every POST with
`okResp`. -/
def oracleOk : Oracle :=
  { refreshResp := .ok okResp, grantResp := .ok okResp }

/-- An environment whose token endpoint answers every POST with
`noExpResp`. -/
def oracleNoExp : Oracle :=
  { refreshResp := .ok noExpResp, grantResp := .ok noExpResp }

/-- A client holding an expired token with a refresh token. -/
def clientR : AuthenticatedClient :=
  { config := cfgCC, env_name := "e", token := expiredTok }

/-- A transport that answers 401 to every call. -/
def transport401 : Nat → Nat := fun _ => 401

/-- Claim C8: for every Token and time, `is_expired` is true iff
`now >= expires_at`; a Token with `expires_at = 0` is expired at every
(nonnegative) time. -/
theorem is_expired_iff (t : AuthToken) (now : Nat) :
    (t.is_expired now = true ↔ t.expires_at ≤ (now : Int))
    ∧ (t.expires_at = 0 → t.is_expired now = true) := by
  constructor
  · simp [AuthToken.is_expired]
  · intro h
    simp [AuthToken.is_expired, h]

/-- Witness for C8 at a concrete token and time. -/
theorem is_expired_iff_witness :
    AuthToken.is_expired
      { access_token := "a", expires_at := 0 } 5 = true :=
  (is_expired_iff { access_token := "a", expires_at := 0 } 5).2 rfl

/-- Claim C9: serializing any Token to its cache dictionary and
deserializing yields the identical Token, including absent optionals. -/
theorem from_dict_to_dict (t : AuthToken) :
    AuthToken.from_dict (AuthToken.to_dict t) = some t := rfl

/-- Claim C1 (the code at the failing input): at time 100, the cached
record decodes to a token that is expired and carries refresh token
"r", yet `get_token` performs zero refresh POSTs — `load_cached_token`
drops expired tokens, so the refresh branch of `get_token` never runs —
and instead acquires a fresh token with one plain grant POST. -/
theorem get_token_expired_cache_never_refreshes :
    AuthToken.from_dict expiredDict = some expiredTok
    ∧ expiredTok.is_expired 100 = true
    ∧ expiredTok.refresh_token = some "r"
    ∧ load_cached_token 100 (.parsed expiredDict) = none
    ∧ (get_token 100 cfgCC (.parsed expiredDict) oracleOk false false).2.refreshPosts = 0
    ∧ (get_token 100 cfgCC (.parsed expiredDict) oracleOk false false).2.acquirePosts = 1 := by
  exact ⟨rfl, by decide, rfl, by decide, by decide, by decide⟩

/-- Counterexample to claim C2: with a held token carrying a refresh
token, a transport that answers 401 to every call, and a refresh
exchange that succeeds, `request` makes exactly two transport calls and
then RETURNS the second 401 response to the caller — it does not raise
an authentication failure. -/
theorem request_persistent_401_returns_response :
    (AuthenticatedClient.request clientR 100 transport401 (Except.ok okResp)).transportCalls = 2
    ∧ (AuthenticatedClient.request clientR 100 transport401 (Except.ok okResp)).outcome
        = Except.ok 401 := by
  exact ⟨by decide, rfl⟩

/-- Counterexample to claim C3: a stored record that decodes
successfully but whose token is expired makes `load_cached_token`
return `None` — expiry IS validated inside the store's load. -/
theorem load_drops_expired_token :
    AuthToken.from_dict expiredDict = some expiredTok
    ∧ expiredTok.is_expired 100 = true
    ∧ load_cached_token 100 (.parsed expiredDict) = none := by
  exact ⟨rfl, by decide, by decide⟩

/-- Counterexample to claim C5: a token-endpoint response that omits
`expires_in` yields a token with `expires_at = now + 3600`, which is
not expired at issuance — not an immediately stale token. -/
theorem acquire_no_expires_in_not_stale :
    noExpResp.expires_in = none
    ∧ acquire_token 1000 cfgCC "client_credentials" oracleNoExp
        = (Except.ok { access_token := "new", expires_at := 4600, token_type := "Bearer"
                       refresh_token := none, id_token := none, issued_at := some 1000 },
           { acquirePosts := 1 })
    ∧ AuthToken.is_expired
        { access_token := "new", expires_at := 4600, token_type := "Bearer"
          refresh_token := none, id_token := none, issued_at := some 1000 } 1000 = false := by
  exact ⟨rfl, rfl, by decide⟩

/-- Claim C6: when the configured grant type is
`authorization_code_pkce`, interaction is not allowed and no usable
cached token exists, `get_token` returns `None` with no side effects at
all — in particular no browser open and no listener bind. -/
theorem get_token_pkce_noninteractive (now : Nat) (cfg : Config)
    (store : StoredRecord) (o : Oracle) (fn : Bool)
    (hg : cfg.grant_type = some "authorization_code_pkce")
    (hl : load_cached_token now store = none) :
    get_token now cfg store o false fn = (none, {}) := by
  cases fn with
  | true => simp [get_token, getTokenAcquire, hg]
  | false =>
    unfold get_token
    rw [if_neg (by simp)]
    rw [hl]
    simp [getTokenAcquire, hg]

/-- Witness for C6 at a concrete PKCE configuration and empty cache. -/
theorem get_token_pkce_noninteractive_witness :
    get_token 7 cfgPkce StoredRecord.missing oracleOk false false = (none, {}) :=
  get_token_pkce_noninteractive 7 cfgPkce StoredRecord.missing oracleOk false rfl rfl

/-- Claim C4: `load_cached_token` never raises — a corrupt backing
store yields `None`; whatever it does return decoded successfully from
a parsed record; and `get_token` on a corrupt cache behaves exactly as
on an empty cache, proceeding to fresh acquisition. -/
theorem load_decode_failure_absent (now : Nat) (cfg : Config)
    (store : StoredRecord) (o : Oracle) (ai fn : Bool) :
    load_cached_token now StoredRecord.corrupt = none
    ∧ (∀ t, load_cached_token now store = some t →
        ∃ d, store = StoredRecord.parsed d ∧ AuthToken.from_dict d = some t)
    ∧ get_token now cfg StoredRecord.corrupt o ai fn
        = get_token now cfg StoredRecord.missing o ai fn := by
  refine ⟨rfl, ?_, ?_⟩
  · intro t h
    cases store with
    | missing => exact Option.noConfusion h
    | corrupt => exact Option.noConfusion h
    | parsed d =>
      refine ⟨d, rfl, ?_⟩
      cases hd : AuthToken.from_dict d with
      | none =>
        simp only [load_cached_token, hd] at h
        exact h
      | some t0 =>
        simp only [load_cached_token, hd] at h
        by_cases hexp : t0.is_expired now
        · rw [if_pos hexp] at h; exact Option.noConfusion h
        · rw [if_neg hexp] at h; exact h
  · cases fn <;> rfl

/-- Witness for C4: applying the decode clause at a record that decodes
to a valid token. -/
theorem load_decode_failure_absent_witness :
    ∃ d, StoredRecord.parsed validDict = StoredRecord.parsed d
      ∧ AuthToken.from_dict d = some validTok :=
  (load_decode_failure_absent 100 cfgCC (StoredRecord.parsed validDict)
    oracleOk false false).2.1 validTok (by decide)

/-- Claim C7: whenever `get_token` reaches its acquisition phase (the
cache yields nothing, or `force_new` is set) and the acquisition raises
any exception, the exception is caught and `get_token` returns `None`
instead of propagating it. -/
theorem get_token_swallows_acquisition_errors (now : Nat) (cfg : Config)
    (store : StoredRecord) (o : Oracle) (ai fn : Bool) (msg : String) (eff : Effects)
    (hreach : fn = true ∨ load_cached_token now store = none)
    (hfail : acquire_token now cfg (cfg.grant_type.getD "client_credentials") o
      = (Except.error msg, eff)) :
    (get_token now cfg store o ai fn).1 = none := by
  have hga : (getTokenAcquire now cfg o ai).1 = none := by
    unfold getTokenAcquire
    split
    · rfl
    · rw [hfail]
  rcases hreach with h | h
  · subst h
    simpa [get_token] using hga
  · cases fn with
    | true => simpa [get_token] using hga
    | false =>
      unfold get_token
      rw [if_neg (by simp)]
      rw [h]
      exact hga

/-- Witness for C7: an unsupported grant string raises `ValueError`
inside acquisition, and `get_token` returns `None`. -/
theorem get_token_swallows_acquisition_errors_witness :
    (get_token 5 cfgBad StoredRecord.missing oracleOk false false).1 = none :=
  get_token_swallows_acquisition_errors 5 cfgBad StoredRecord.missing oracleOk
    false false "Unsupported grant_type: implicit" {} (Or.inr rfl) rfl

/-- Claim C3 (amended): `load_cached_token` returns a token exactly
when the stored record decodes successfully AND the decoded token is
not expired at load time — expiry is validated by the store, not left
to the caller. -/
theorem load_cached_token_spec (now : Nat) (store : StoredRecord) (t : AuthToken) :
    load_cached_token now store = some t ↔
      (∃ d, store = StoredRecord.parsed d ∧ AuthToken.from_dict d = some t)
      ∧ t.is_expired now = false := by
  constructor
  · intro h
    cases store with
    | missing => exact Option.noConfusion h
    | corrupt => exact Option.noConfusion h
    | parsed d =>
      cases hd : AuthToken.from_dict d with
      | none =>
        simp only [load_cached_token, hd] at h
        exact Option.noConfusion h
      | some t0 =>
        simp only [load_cached_token, hd] at h
        by_cases hexp : t0.is_expired now
        · rw [if_pos hexp] at h; exact Option.noConfusion h
        · rw [if_neg hexp] at h
          injection h with h2
          subst h2
          exact ⟨⟨d, rfl, hd⟩, by simpa using hexp⟩
  · rintro ⟨⟨d, rfl, hd⟩, hexp⟩
    simp only [load_cached_token, hd]
    rw [if_neg (by simp [hexp])]

/-- Witness for the amended C3 at a record decoding to an unexpired
token. -/
theorem load_cached_token_spec_witness :
    load_cached_token 100 (StoredRecord.parsed validDict) = some validTok :=
  (load_cached_token_spec 100 (StoredRecord.parsed validDict) validTok).mpr
    ⟨⟨validDict, rfl, rfl⟩, by decide⟩

/-- Claim C2 (amended): `request` makes at most two transport calls
(at most one retry).  On a 401: without a refresh token it raises after
one transport call; with a refresh token and a successful refresh it
retries once and RETURNS whatever the retry answers (a second 401
included); with a failing refresh it raises after one transport call. -/
theorem request_retry_policy (now : Nat) (c : AuthenticatedClient)
    (transport : Nat → Nat) (refreshResp : Except Unit TokenResponse) :
    (c.request now transport refreshResp).transportCalls ≤ 2
    ∧ (transport 0 = 401 → c.token.refresh_token = none →
        (c.request now transport refreshResp).transportCalls = 1
        ∧ (c.request now transport refreshResp).outcome
            = Except.error "Authentication failed and no refresh token available")
    ∧ (∀ t2 n, transport 0 = 401 →
        refresh_auth_token now c.token c.config refreshResp = (Except.ok t2, n) →
        (c.request now transport refreshResp).transportCalls = 2
        ∧ (c.request now transport refreshResp).outcome = Except.ok (transport 1))
    ∧ (∀ msg n, transport 0 = 401 → c.token.refresh_token ≠ none →
        refresh_auth_token now c.token c.config refreshResp = (Except.error msg, n) →
        (c.request now transport refreshResp).transportCalls = 1
        ∧ (c.request now transport refreshResp).outcome
            = Except.error "Authentication failed and token refresh unsuccessful") := by
  by_cases h0 : transport 0 = 401
  · cases hrt : c.token.refresh_token with
    | none =>
      have hreq : c.request now transport refreshResp =
          { outcome := .error "Authentication failed and no refresh token available"
            transportCalls := 1, heldToken := c.token, saved := [] } := by
        simp [AuthenticatedClient.request, h0, hrt]
      refine ⟨?_, ?_, ?_, ?_⟩
      · simp [hreq]
      · intro _ _; rw [hreq]; exact ⟨rfl, rfl⟩
      · intro t2 n _ hok
        simp [refresh_auth_token, hrt] at hok
      · intro msg n _ hne _; exact absurd rfl hne
    | some rt =>
      rcases hres : refresh_auth_token now c.token c.config refreshResp with ⟨res, nn⟩
      cases res with
      | ok t2 =>
        have hreq : c.request now transport refreshResp =
            { outcome := .ok (transport 1), transportCalls := 2
              heldToken := t2, saved := [t2] } := by
          simp [AuthenticatedClient.request, h0, hrt, hres]
        refine ⟨?_, ?_, ?_, ?_⟩
        · simp [hreq]
        · intro _ hnone; exact Option.noConfusion hnone
        · intro t2b nb _ _; rw [hreq]; exact ⟨rfl, rfl⟩
        · intro msg nb _ _ herr
          exact absurd herr (by simp)
      | error msg0 =>
        have hreq : c.request now transport refreshResp =
            { outcome := .error "Authentication failed and token refresh unsuccessful"
              transportCalls := 1
              heldToken := c.token
              saved := [{ access_token := "", expires_at := 0, refresh_token := none
                          id_token := none, issued_at := some (now : Int) }] } := by
          simp [AuthenticatedClient.request, h0, hrt, hres]
        refine ⟨?_, ?_, ?_, ?_⟩
        · simp [hreq]
        · intro _ hnone; exact Option.noConfusion hnone
        · intro t2b nb _ hok
          exact absurd hok (by simp)
        · intro _ _ _ _ _; rw [hreq]; exact ⟨rfl, rfl⟩
  · have hreq : c.request now transport refreshResp =
        { outcome := .ok (transport 0), transportCalls := 1
          heldToken := c.token, saved := [] } := by
      simp [AuthenticatedClient.request, h0]
    refine ⟨?_, ?_, ?_, ?_⟩
    · simp [hreq]
    · intro h0b _; exact absurd h0b h0
    · intro t2 n h0b _; exact absurd h0b h0
    · intro msg n h0b _ _; exact absurd h0b h0

/-- Witness for the amended C2: the successful-refresh clause at a
concrete client, a transport answering 401 twice and a refresh exchange
answering `okResp`. -/
theorem request_retry_policy_witness :
    (AuthenticatedClient.request clientR 100 transport401 (Except.ok okResp)).transportCalls = 2
    ∧ (AuthenticatedClient.request clientR 100 transport401 (Except.ok okResp)).outcome
        = Except.ok (transport401 1) :=
  (request_retry_policy 100 clientR transport401 (Except.ok okResp)).2.2.1
    { access_token := "new", expires_at := 160, token_type := "Bearer"
      refresh_token := some "r", id_token := none, issued_at := some 100 } 1 rfl rfl

/-- Success shape of the non-PKCE token POST: a returned token always
comes from a 2xx response body that carried an `access_token`. -/
theorem acquire_token_post_ok (now : Nat) (cfg : Config) (o : Oracle)
    (t : AuthToken) (e : Effects)
    (h : acquire_token_post now cfg o = (Except.ok t, e)) :
    ∃ r a, o.grantResp = Except.ok r ∧ r.access_token = some a
      ∧ t = tokenFromResponse now a r := by
  cases htu : cfg.token_url with
  | none => simp [acquire_token_post, htu] at h
  | some u =>
    cases hg : o.grantResp with
    | error err => simp [acquire_token_post, htu, hg] at h
    | ok r =>
      cases ha : r.access_token with
      | none => simp [acquire_token_post, htu, hg, ha] at h
      | some a =>
        simp only [acquire_token_post, htu, hg, ha] at h
        injection h with h1 h2
        injection h1 with h1
        exact ⟨r, a, rfl, ha, h1.symm⟩

/-- Claim C5 (amended): when the token-endpoint response omits
`expires_in`, both `acquire_token` (non-PKCE grants) and
`_refresh_auth_token` construct the token with
`expires_at = now + 3600` — one hour of default validity, so the token
is NOT expired at issuance. -/
theorem acquire_omitted_expires_in_default (now : Nat) :
    (∀ cfg gt o r t e, gt ≠ "authorization_code_pkce" →
      o.grantResp = Except.ok r → r.expires_in = none →
      acquire_token now cfg gt o = (Except.ok t, e) →
      t.expires_at = (now : Int) + 3600 ∧ t.is_expired now = false)
    ∧ (∀ tok cfg r t n, r.expires_in = none →
      refresh_auth_token now tok cfg (Except.ok r) = (Except.ok t, n) →
      t.expires_at = (now : Int) + 3600 ∧ t.is_expired now = false) := by
  constructor
  · intro cfg gt o r t e hgt hr hexp h
    unfold acquire_token at h
    rw [if_neg hgt] at h
    have hpost : acquire_token_post now cfg o = (Except.ok t, e) := by
      by_cases hcc : gt = "client_credentials"
      · rw [if_pos hcc] at h
        cases hci : cfg.client_id with
        | none => simp [hci] at h
        | some ci =>
          cases hcs : cfg.client_secret with
          | none => simp [hci, hcs] at h
          | some cs => simpa [hci, hcs] using h
      · rw [if_neg hcc] at h
        by_cases hpw : gt = "password"
        · rw [if_pos hpw] at h
          cases hci : cfg.client_id with
          | none => simp [hci] at h
          | some ci =>
            cases hcs : cfg.client_secret with
            | none => simp [hci, hcs] at h
            | some cs =>
              cases hun : cfg.username with
              | none => simp [hci, hcs, hun] at h
              | some un =>
                cases hpd : cfg.password with
                | none => simp [hci, hcs, hun, hpd] at h
                | some pd => simpa [hci, hcs, hun, hpd] using h
        · rw [if_neg hpw] at h
          simp at h
    obtain ⟨r2, a, hg2, ha, ht⟩ := acquire_token_post_ok now cfg o t e hpost
    rw [hr] at hg2
    injection hg2 with hg2
    subst hg2
    subst ht
    constructor
    · simp [tokenFromResponse, hexp]
    · simp [AuthToken.is_expired, tokenFromResponse, hexp]
  · intro tok cfg r t n hexp h
    cases hrt : tok.refresh_token with
    | none => simp [refresh_auth_token, hrt] at h
    | some rt =>
      cases hci : cfg.client_id with
      | none => simp [refresh_auth_token, hrt, hci] at h
      | some ci =>
        cases hcs : cfg.client_secret with
        | none => simp [refresh_auth_token, hrt, hci, hcs] at h
        | some cs =>
          cases htu : cfg.token_url with
          | none => simp [refresh_auth_token, hrt, hci, hcs, htu] at h
          | some tu =>
            cases ha : r.access_token with
            | none => simp [refresh_auth_token, hrt, hci, hcs, htu, ha] at h
            | some a =>
              simp only [refresh_auth_token, hrt, hci, hcs, htu, ha] at h
              injection h with h1 h2
              injection h1 with h1
              subst h1
              constructor
              · simp [tokenFromResponse, hexp]
              · simp [AuthToken.is_expired, tokenFromResponse, hexp]

/-- Witness for the amended C5: client-credentials acquisition against
a response without `expires_in` at time 1000. -/
theorem acquire_omitted_expires_in_default_witness :
    AuthToken.expires_at (tokenFromResponse 1000 "new" noExpResp) = (1000 : Int) + 3600
    ∧ AuthToken.is_expired (tokenFromResponse 1000 "new" noExpResp) 1000 = false :=
  (acquire_omitted_expires_in_default 1000).1 cfgCC "client_credentials" oracleNoExp
    noExpResp (tokenFromResponse 1000 "new" noExpResp) { acquirePosts := 1 }
    (by decide) rfl rfl rfl

/-- Claim C10: for every successful refresh exchange, if the response
omits `refresh_token` the new token carries the previous token's
`refresh_token` forward, and — independently — if the response omits
`id_token` the new token carries the previous `id_token` forward; in
both `_refresh_auth_token` (auth.py) and `SSOAuth._refresh_token`
(sso.py). -/
theorem refresh_preserves_refresh_and_id (now : Nat) :
    (∀ tok cfg r t n,
      refresh_auth_token now tok cfg (Except.ok r) = (Except.ok t, n) →
      (r.refresh_token = none → t.refresh_token = tok.refresh_token)
      ∧ (r.id_token = none → t.id_token = tok.id_token))
    ∧ (∀ tok r t,
      SSOAuth.refresh_token now tok (Except.ok r) = Except.ok t →
      (r.refresh_token = none → t.refresh_token = tok.refresh_token)
      ∧ (r.id_token = none → t.id_token = tok.id_token)) := by
  constructor
  · intro tok cfg r t n h
    cases hrt : tok.refresh_token with
    | none => simp [refresh_auth_token, hrt] at h
    | some rt =>
      cases hci : cfg.client_id with
      | none => simp [refresh_auth_token, hrt, hci] at h
      | some ci =>
        cases hcs : cfg.client_secret with
        | none => simp [refresh_auth_token, hrt, hci, hcs] at h
        | some cs =>
          cases htu : cfg.token_url with
          | none => simp [refresh_auth_token, hrt, hci, hcs, htu] at h
          | some tu =>
            cases ha : r.access_token with
            | none => simp [refresh_auth_token, hrt, hci, hcs, htu, ha] at h
            | some a =>
              simp only [refresh_auth_token, hrt, hci, hcs, htu, ha] at h
              injection h with hh hn
              injection hh with hh
              subst hh
              constructor
              · intro h1; simp [h1, hrt]
              · intro h2; simp [h2]
  · intro tok r t h
    cases hrt : tok.refresh_token with
    | none => simp [SSOAuth.refresh_token, hrt] at h
    | some rt =>
      cases ha : r.access_token with
      | none => simp [SSOAuth.refresh_token, hrt, ha] at h
      | some a =>
        simp only [SSOAuth.refresh_token, hrt, ha] at h
        injection h with hh
        subst hh
        constructor
        · intro h1; simp [h1, hrt]
        · intro h2; simp [h2]

/-- Witness for C10, exercising each omission on its own: refreshing
`expiredTok` against a response that omits only `refresh_token` (but
carries a new `id_token`) keeps the previous `some "r"`, and against a
response that omits only `id_token` (but carries a new
`refresh_token`) keeps the previous `id_token`. -/
theorem refresh_preserves_refresh_and_id_witness :
    AuthToken.refresh_token
        { access_token := "new", expires_at := 3700, token_type := "Bearer"
          refresh_token := some "r", id_token := some "newid", issued_at := some 100 }
      = expiredTok.refresh_token
    ∧ AuthToken.id_token
        { access_token := "new", expires_at := 3700, token_type := "Bearer"
          refresh_token := some "r2", id_token := none, issued_at := some 100 }
      = expiredTok.id_token :=
  ⟨((refresh_preserves_refresh_and_id 100).1 expiredTok cfgCC respNoRefresh
      { access_token := "new", expires_at := 3700, token_type := "Bearer"
        refresh_token := some "r", id_token := some "newid", issued_at := some 100 }
      1 rfl).1 rfl,
   ((refresh_preserves_refresh_and_id 100).1 expiredTok cfgCC respNoId
      { access_token := "new", expires_at := 3700, token_type := "Bearer"
        refresh_token := some "r2", id_token := none, issued_at := some 100 }
      1 rfl).2 rfl⟩

end Lmi
